import Mathlib

/-!
Verification of the Vanta repository against its specification.

The repository has two independent units:

* `scripts/download_model.py` — a standalone asset fetcher (`main`) that
  ensures a destination directory exists, checks whether the model file is
  already present, and downloads it from a fixed URL if not.
* `agent/agent.py` — a session orchestrator (`entrypoint`) that connects to
  a room, waits for a participant, builds a realtime-model client and a
  session, starts the session with an agent descriptor, issues a greeting,
  and then suspends forever; everything is wrapped in one
  `try/except Exception` handler that logs and returns.

We shallowly embed both units.  Filesystem state is an explicit record
(files as an association list from path to byte list, directories as a list
of paths); the network is a parameter (`Option` of the fetched bytes, `none`
standing for a fetch that raises).  The orchestrator is embedded as a
straight-line interpreter over an environment that says, for each awaited or
constructing step, whether it succeeds, raises an `Exception`, or raises a
`BaseException` not derived from `Exception`; the interpreter returns the
control-flow outcome together with the trace of observable events.
-/

namespace DownloadModel

/-- The fixed remote URL (`MODEL_URL` in `scripts/download_model.py`). -/
def MODEL_URL : String :=
  "https://raw.githubusercontent.com/snakers4/silero-vad/master/src/silero_vad/data/silero_vad.onnx"

/-- The fixed output path (`OUTPUT_PATH` in `scripts/download_model.py`). -/
def OUTPUT_PATH : String := "app/src/main/assets/silero_vad.onnx"

/-- The directory of `OUTPUT_PATH` together with all its parents, in the
order `os.makedirs` creates them (`os.path.dirname(OUTPUT_PATH)`). -/
def outputDirChain : List String :=
  ["app", "app/src", "app/src/main", "app/src/main/assets"]

/-- Filesystem state: files as path-to-bytes association list, plus the set
of existing directories as a list of paths. -/
structure FsState where
  files : List (String × List Nat)
  dirs : List String
deriving DecidableEq

/-- Look a path up in the file table (models `os.path.exists` on a file
path, and reading the file's bytes). -/
def findFile : List (String × List Nat) → String → Option (List Nat)
  | [], _ => none
  | (p, b) :: rest, q => if p = q then some b else findFile rest q

/-- Add a directory if absent; a no-op if present (one `mkdir` step of
`os.makedirs(..., exist_ok=True)`, which never raises on an existing
directory). -/
def addDir (ds : List String) (d : String) : List String :=
  if d ∈ ds then ds else ds ++ [d]

/-- `os.makedirs(path, exist_ok=True)`: create the directory and all its
parents, raising no error for the ones already present. -/
def makedirs (fs : FsState) (chain : List String) : FsState :=
  { fs with dirs := chain.foldl addDir fs.dirs }

/-- Observable outcome of one run of the script: the resulting filesystem,
how many network fetches were attempted, what was printed, and whether an
uncaught exception terminated the process with a non-zero status. -/
structure RunOutcome where
  fs : FsState
  fetches : Nat
  printed : List String
  errored : Bool
deriving DecidableEq

/-- `main` of `scripts/download_model.py`.  The network is passed as a
parameter: `some bytes` is a successful `urllib.request.urlretrieve` of
`MODEL_URL` delivering `bytes`, `none` is a fetch that raises (DNS failure,
HTTP error, ...).  The fetch is the library call at the boundary, modelled
atomically: on failure it raises before the destination file is written, and
the script has no handler, so the error escapes and the process exits
non-zero. -/
def main (fs : FsState) (net : Option (List Nat)) : RunOutcome :=
  let fs1 := makedirs fs outputDirChain
  match findFile fs1.files OUTPUT_PATH with
  | some _ =>
      { fs := fs1, fetches := 0,
        printed := ["Model already exists: " ++ OUTPUT_PATH], errored := false }
  | none =>
      match net with
      | none =>
          { fs := fs1, fetches := 1,
            printed := ["Downloading Silero VAD model..."], errored := true }
      | some bytes =>
          { fs := { fs1 with files := (OUTPUT_PATH, bytes) :: fs1.files },
            fetches := 1,
            printed := ["Downloading Silero VAD model...",
                        "Downloaded to: " ++ OUTPUT_PATH],
            errored := false }

/-- Two successive invocations of the script against the same network: the
second run starts from the filesystem the first run left behind. -/
def runTwice (fs : FsState) (net : Option (List Nat)) : RunOutcome × RunOutcome :=
  let r1 := main fs net
  (r1, main r1.fs net)

end DownloadModel

namespace VantaAgent

/-- The hardcoded model identifier passed to the realtime-model client
(`agent/agent.py`). -/
def modelName : String := "gemini-2.0-flash-exp"

/-- The instruction string of the model-client configuration. -/
def modelInstructions : String := "You are Vanta, a helpful assistant."

/-- The instruction string of the agent descriptor passed to session start. -/
def agentInstructions : String := "You are Vanta."

/-- The greeting instruction passed to `session.generate_reply`. -/
def greetingInstructions : String :=
  "Say hello to the user and introduce yourself as Vanta."

/-- What one step of the entrypoint's body does when executed: it succeeds,
raises an exception of class `Exception`, or raises a `BaseException` not
derived from `Exception` (task cancellation, keyboard interrupt, system
exit). -/
inductive StepResult
  | ok
  | raiseExc
  | raiseBase
deriving DecidableEq

/-- The external world of one entrypoint invocation: for each awaited call
or constructor in the body, in source order, whether it succeeds or raises.
`foreverWait` is the final `await asyncio.Future()`: `ok` means the future
never resolves (the await suspends forever); a raise there is external
cancellation of the wait. -/
structure Env where
  connect : StepResult
  waitParticipant : StepResult
  buildModel : StepResult
  buildSession : StepResult
  startSession : StepResult
  greet : StepResult
  foreverWait : StepResult
deriving DecidableEq

/-- Observable events of one invocation, in order.  An event for a call or
construction marks the invocation attempt; its fields are the hardcoded
arguments from the source. -/
inductive Event
  | logInfo (msg : String)
  | connectCall
  | waitCall
  | modelCtor (model : String) (instructions : String)
  | sessionCtor
  | agentCtor (instructions : String)
  | startCall
  | greetCall (instructions : String)
  | logError
deriving DecidableEq

/-- How the `try` body of `entrypoint` ends. -/
inductive BodyOutcome
  | suspended
  | excRaised
  | baseRaised
deriving DecidableEq

/-- The straight-line `try` body of `entrypoint` (`agent/agent.py`, steps
1–7 of the spec): log + connect, wait for participant, log, construct the
model client, construct the session, construct the agent descriptor, start
the session, issue the greeting, suspend forever.  Returns how the body
ends together with the event trace up to that point. -/
def runBody (env : Env) : BodyOutcome × List Event :=
  let t1 : List Event := [.logInfo "Connecting to room", .connectCall]
  match env.connect with
  | .raiseExc => (.excRaised, t1)
  | .raiseBase => (.baseRaised, t1)
  | .ok =>
  let t2 := t1 ++ [.waitCall]
  match env.waitParticipant with
  | .raiseExc => (.excRaised, t2)
  | .raiseBase => (.baseRaised, t2)
  | .ok =>
  let t3 := t2 ++ [.logInfo "Participant connected",
                   .modelCtor modelName modelInstructions]
  match env.buildModel with
  | .raiseExc => (.excRaised, t3)
  | .raiseBase => (.baseRaised, t3)
  | .ok =>
  let t4 := t3 ++ [.sessionCtor]
  match env.buildSession with
  | .raiseExc => (.excRaised, t4)
  | .raiseBase => (.baseRaised, t4)
  | .ok =>
  let t5 := t4 ++ [.agentCtor agentInstructions, .startCall]
  match env.startSession with
  | .raiseExc => (.excRaised, t5)
  | .raiseBase => (.baseRaised, t5)
  | .ok =>
  let t6 := t5 ++ [.greetCall greetingInstructions]
  match env.greet with
  | .raiseExc => (.excRaised, t6)
  | .raiseBase => (.baseRaised, t6)
  | .ok =>
  match env.foreverWait with
  | .ok => (.suspended, t6)
  | .raiseExc => (.excRaised, t6)
  | .raiseBase => (.baseRaised, t6)

/-- How one invocation of `entrypoint` ends: suspended forever at the final
await, returned normally, or a `BaseException` propagated out. -/
inductive Outcome
  | suspended
  | returned
  | propagatedBase
deriving DecidableEq

/-- `entrypoint` of `agent/agent.py`: the body wrapped in the single
`try/except Exception as e` handler, which logs one error entry
(`logger.error(..., exc_info=True)`) and lets the function return; a
`BaseException` not derived from `Exception` does not match the handler and
propagates. -/
def entrypoint (env : Env) : Outcome × List Event :=
  match runBody env with
  | (.suspended, tr) => (.suspended, tr)
  | (.excRaised, tr) => (.returned, tr ++ [.logError])
  | (.baseRaised, tr) => (.propagatedBase, tr)

/-- The environment where every step succeeds and the final future never
resolves (the nominal run). -/
def allOk : Env := ⟨.ok, .ok, .ok, .ok, .ok, .ok, .ok⟩

/-- The first raising step of the body is an `Exception` at one of steps
1–6 (connect, participant wait, model construction, session construction,
session start, greeting): all earlier steps succeed. -/
def excFirstInSteps16 (env : Env) : Prop :=
  env.connect = .raiseExc
  ∨ (env.connect = .ok ∧ env.waitParticipant = .raiseExc)
  ∨ (env.connect = .ok ∧ env.waitParticipant = .ok
      ∧ env.buildModel = .raiseExc)
  ∨ (env.connect = .ok ∧ env.waitParticipant = .ok ∧ env.buildModel = .ok
      ∧ env.buildSession = .raiseExc)
  ∨ (env.connect = .ok ∧ env.waitParticipant = .ok ∧ env.buildModel = .ok
      ∧ env.buildSession = .ok ∧ env.startSession = .raiseExc)
  ∨ (env.connect = .ok ∧ env.waitParticipant = .ok ∧ env.buildModel = .ok
      ∧ env.buildSession = .ok ∧ env.startSession = .ok
      ∧ env.greet = .raiseExc)

/-- The first raising step of the body raises a `BaseException` not derived
from `Exception`, at any of the seven steps: all earlier steps succeed. -/
def baseFirst (env : Env) : Prop :=
  env.connect = .raiseBase
  ∨ (env.connect = .ok ∧ env.waitParticipant = .raiseBase)
  ∨ (env.connect = .ok ∧ env.waitParticipant = .ok
      ∧ env.buildModel = .raiseBase)
  ∨ (env.connect = .ok ∧ env.waitParticipant = .ok ∧ env.buildModel = .ok
      ∧ env.buildSession = .raiseBase)
  ∨ (env.connect = .ok ∧ env.waitParticipant = .ok ∧ env.buildModel = .ok
      ∧ env.buildSession = .ok ∧ env.startSession = .raiseBase)
  ∨ (env.connect = .ok ∧ env.waitParticipant = .ok ∧ env.buildModel = .ok
      ∧ env.buildSession = .ok ∧ env.startSession = .ok
      ∧ env.greet = .raiseBase)
  ∨ (env.connect = .ok ∧ env.waitParticipant = .ok ∧ env.buildModel = .ok
      ∧ env.buildSession = .ok ∧ env.startSession = .ok ∧ env.greet = .ok
      ∧ env.foreverWait = .raiseBase)

/-- Whether an event is a model-client construction. -/
def Event.isModelCtor : Event → Bool
  | .modelCtor _ _ => true
  | _ => false

end VantaAgent

namespace DownloadModel

lemma mem_addDir {ds : List String} {d a : String} :
    a ∈ addDir ds d ↔ a ∈ ds ∨ a = d := by
  unfold addDir
  split
  · constructor
    · exact fun h => Or.inl h
    · rintro (h | rfl)
      · exact h
      · assumption
  · simp [List.mem_append]

lemma addDir_eq_of_mem {ds : List String} {d : String} (h : d ∈ ds) :
    addDir ds d = ds := by
  simp [addDir, h]

lemma findFile_makedirs (fs : FsState) (chain : List String) (q : String) :
    findFile (makedirs fs chain).files q = findFile fs.files q := by
  rfl

/-- The script run when the output file already exists: no fetch, a
confirmation line, normal exit, directories ensured, files untouched. -/
lemma main_exists {fs : FsState} {net : Option (List Nat)} {b : List Nat}
    (h : findFile fs.files OUTPUT_PATH = some b) :
    main fs net =
      { fs := makedirs fs outputDirChain, fetches := 0,
        printed := ["Model already exists: " ++ OUTPUT_PATH], errored := false } := by
  have h' : findFile (makedirs fs outputDirChain).files OUTPUT_PATH = some b := h
  simp [main, h']

/-- The script run when the output file is absent and the fetch succeeds. -/
lemma main_download {fs : FsState} {bytes : List Nat}
    (h : findFile fs.files OUTPUT_PATH = none) :
    main fs (some bytes) =
      { fs := { files := (OUTPUT_PATH, bytes) :: fs.files,
                dirs := (makedirs fs outputDirChain).dirs },
        fetches := 1,
        printed := ["Downloading Silero VAD model...",
                    "Downloaded to: " ++ OUTPUT_PATH],
        errored := false } := by
  have h' : findFile (makedirs fs outputDirChain).files OUTPUT_PATH = none := h
  simp [main, h', h, makedirs]

/-- The script run when the output file is absent and the fetch raises. -/
lemma main_fail {fs : FsState}
    (h : findFile fs.files OUTPUT_PATH = none) :
    main fs none =
      { fs := makedirs fs outputDirChain, fetches := 1,
        printed := ["Downloading Silero VAD model..."], errored := true } := by
  have h' : findFile (makedirs fs outputDirChain).files OUTPUT_PATH = none := h
  simp [main, h']

lemma dirs_main (fs : FsState) (net : Option (List Nat)) :
    (main fs net).fs.dirs = (makedirs fs outputDirChain).dirs := by
  cases h : findFile fs.files OUTPUT_PATH with
  | some b => rw [main_exists h]
  | none => cases net with
    | none => rw [main_fail h]
    | some bytes => rw [main_download h]

lemma mem_dirs_main {fs : FsState} {net : Option (List Nat)} {d : String} :
    d ∈ (main fs net).fs.dirs ↔ d ∈ fs.dirs ∨ d ∈ outputDirChain := by
  rw [dirs_main]
  simp only [makedirs, outputDirChain, List.foldl, mem_addDir, List.mem_cons,
    List.not_mem_nil, or_false]
  tauto

lemma foldl_addDir_eq_of_subset (l : List String) (ds : List String)
    (h : ∀ d ∈ l, d ∈ ds) : l.foldl addDir ds = ds := by
  induction l generalizing ds with
  | nil => rfl
  | cons x xs ih =>
      simp only [List.foldl]
      rw [addDir_eq_of_mem (h x (by simp))]
      exact ih ds fun d hd => h d (by simp [hd])

lemma dirs_main_eq_of_subset {fs : FsState} {net : Option (List Nat)}
    (h : ∀ d ∈ outputDirChain, d ∈ fs.dirs) :
    (main fs net).fs.dirs = fs.dirs := by
  rw [dirs_main]
  exact foldl_addDir_eq_of_subset outputDirChain fs.dirs h

lemma files_main_of_exists {fs : FsState} {net : Option (List Nat)} {b : List Nat}
    (h : findFile fs.files OUTPUT_PATH = some b) :
    (main fs net).fs.files = fs.files := by
  rw [main_exists h]
  simp [makedirs]

lemma fetches_main_of_exists {fs : FsState} {net : Option (List Nat)} {b : List Nat}
    (h : findFile fs.files OUTPUT_PATH = some b) :
    (main fs net).fetches = 0 := by
  rw [main_exists h]

end DownloadModel

open DownloadModel VantaAgent

/-- C1, counterexample: the claim "for every filesystem state, calling the
asset fetcher twice in succession performs exactly one network fetch" is
false when the output file already exists before the first run — the two
runs then perform zero fetches in total. -/
theorem c1_counterexample :
    ¬ ((runTwice ⟨[(OUTPUT_PATH, [1, 2, 3])], []⟩ (some [9])).1.fetches
        + (runTwice ⟨[(OUTPUT_PATH, [1, 2, 3])], []⟩ (some [9])).2.fetches = 1) := by
  decide

/-- C1, amended: for every filesystem state, calling the asset fetcher twice
in succession with a succeeding network performs at most one network fetch —
exactly one if the output file was initially absent, zero if it was present —
and after the second run the file table (in particular the file at the output
path) is byte-for-byte identical to its state after the first run: once
downloaded, the asset is never re-downloaded unless manually deleted. -/
theorem c1_amended_idempotence (fs : FsState) (bytes : List Nat) :
    (runTwice fs (some bytes)).1.fetches + (runTwice fs (some bytes)).2.fetches
      = (if (findFile fs.files OUTPUT_PATH).isSome then 0 else 1)
    ∧ (runTwice fs (some bytes)).2.fs.files = (runTwice fs (some bytes)).1.fs.files := by
  simp only [runTwice]
  cases h : findFile fs.files OUTPUT_PATH with
  | some b =>
      have h2 : findFile (main fs (some bytes)).fs.files OUTPUT_PATH = some b := by
        rw [files_main_of_exists h]; exact h
      refine ⟨?_, files_main_of_exists h2⟩
      rw [fetches_main_of_exists h, fetches_main_of_exists h2]
      rfl
  | none =>
      have hf1 : (main fs (some bytes)).fs.files = (OUTPUT_PATH, bytes) :: fs.files := by
        rw [main_download h]
      have h2 : findFile (main fs (some bytes)).fs.files OUTPUT_PATH = some bytes := by
        rw [hf1]; simp [findFile]
      refine ⟨?_, files_main_of_exists h2⟩
      have hfe1 : (main fs (some bytes)).fetches = 1 := by rw [main_download h]
      rw [hfe1, fetches_main_of_exists h2]
      rfl

/-- C3: if the destination file already exists — regardless of its content —
the asset fetcher performs zero network fetches, prints the confirmation
line, and returns without error, whatever the network would do. -/
theorem c3_exists_no_network (fs : FsState) (net : Option (List Nat))
    (b : List Nat) (h : findFile fs.files OUTPUT_PATH = some b) :
    (main fs net).fetches = 0
    ∧ (main fs net).printed = ["Model already exists: " ++ OUTPUT_PATH]
    ∧ (main fs net).errored = false := by
  rw [main_exists h]
  exact ⟨rfl, rfl, rfl⟩

/-- C3, witness: a run against a one-file filesystem holding the output path
(with an unreachable network) fetches nothing and prints the confirmation. -/
theorem c3_witness :
    (main ⟨[(OUTPUT_PATH, [0])], []⟩ none).fetches = 0
    ∧ (main ⟨[(OUTPUT_PATH, [0])], []⟩ none).printed
        = ["Model already exists: " ++ OUTPUT_PATH]
    ∧ (main ⟨[(OUTPUT_PATH, [0])], []⟩ none).errored = false :=
  c3_exists_no_network ⟨[(OUTPUT_PATH, [0])], []⟩ none [0] (by simp [findFile])

/-- C5: if the output file is absent and the network fetch raises, the error
propagates uncaught (the process exits non-zero), the file table is
unchanged, and no destination file is created or left partially written. -/
theorem c5_failed_fetch_propagates (fs : FsState)
    (h : findFile fs.files OUTPUT_PATH = none) :
    (main fs none).errored = true
    ∧ (main fs none).fs.files = fs.files
    ∧ findFile (main fs none).fs.files OUTPUT_PATH = none := by
  rw [main_fail h]
  exact ⟨rfl, rfl, h⟩

/-- C5, witness: on an empty filesystem with a failing network, the run
errors out and creates no file. -/
theorem c5_witness :
    (main ⟨[], []⟩ none).errored = true
    ∧ (main ⟨[], []⟩ none).fs.files = (⟨[], []⟩ : FsState).files
    ∧ findFile (main ⟨[], []⟩ none).fs.files OUTPUT_PATH = none :=
  c5_failed_fetch_propagates ⟨[], []⟩ rfl

/-- C7: every run of the asset fetcher ends with the destination directory
and all its parents present; if they were all already present the directory
list is left untouched; and no run ever errors because of directory
creation — the only error source is a failing fetch on an absent file. -/
theorem c7_directory_creation (fs : FsState) (net : Option (List Nat)) :
    (∀ d ∈ outputDirChain, d ∈ (main fs net).fs.dirs)
    ∧ ((∀ d ∈ outputDirChain, d ∈ fs.dirs) → (main fs net).fs.dirs = fs.dirs)
    ∧ ((main fs net).errored = true
        ↔ (findFile fs.files OUTPUT_PATH = none ∧ net = none)) := by
  refine ⟨fun d hd => mem_dirs_main.mpr (Or.inr hd), dirs_main_eq_of_subset, ?_⟩
  cases h : findFile fs.files OUTPUT_PATH with
  | some b => rw [main_exists h]; simp [h]
  | none =>
      cases net with
      | none => rw [main_fail h]; simp [h]
      | some bytes => rw [main_download h]; simp

/-- C7, witness: with all chain directories already present, the run leaves
the directory list untouched. -/
theorem c7_witness :
    (main ⟨[], outputDirChain⟩ (some [7])).fs.dirs
      = (⟨[], outputDirChain⟩ : FsState).dirs :=
  (c7_directory_creation ⟨[], outputDirChain⟩ (some [7])).2.1 (fun _ hd => hd)

/-- C10: even an invocation that performs no download because the file is
already present creates the destination directory chain as a side effect
(the resulting directories are exactly the old ones plus the chain), fetches
nothing, and modifies no file. -/
theorem c10_dirs_created_unconditionally (fs : FsState) (net : Option (List Nat))
    (b : List Nat) (h : findFile fs.files OUTPUT_PATH = some b) :
    (main fs net).fetches = 0
    ∧ (main fs net).fs.files = fs.files
    ∧ ∀ d, d ∈ (main fs net).fs.dirs ↔ (d ∈ fs.dirs ∨ d ∈ outputDirChain) := by
  refine ⟨?_, ?_, fun d => mem_dirs_main⟩
  · rw [main_exists h]
  · rw [main_exists h]
    rfl

/-- C10, witness: a no-download run on a filesystem already holding the file
and the directory "app" fetches nothing, keeps the files, and ends with
exactly the old directories plus the chain. -/
theorem c10_witness :
    (main ⟨[(OUTPUT_PATH, [])], ["app"]⟩ (some [5])).fetches = 0
    ∧ (main ⟨[(OUTPUT_PATH, [])], ["app"]⟩ (some [5])).fs.files
        = (⟨[(OUTPUT_PATH, [])], ["app"]⟩ : FsState).files
    ∧ ∀ d, d ∈ (main ⟨[(OUTPUT_PATH, [])], ["app"]⟩ (some [5])).fs.dirs
        ↔ (d ∈ (⟨[(OUTPUT_PATH, [])], ["app"]⟩ : FsState).dirs ∨ d ∈ outputDirChain) :=
  c10_dirs_created_unconditionally ⟨[(OUTPUT_PATH, [])], ["app"]⟩ (some [5]) []
    (by simp [findFile])

/-- C2: whenever the first raising step of the orchestrator body is an
`Exception` at one of steps 1–6 (connect, participant wait, model
construction, session construction, session start, greeting), the single
outer handler catches it, exactly one error entry is logged, it is the last
observable event, and the entrypoint returns normally — no re-raise, no
retry, no failure signalled upward. -/
theorem c2_exception_swallowed (env : Env) (h : excFirstInSteps16 env) :
    (entrypoint env).1 = .returned
    ∧ (entrypoint env).2.count .logError = 1
    ∧ (entrypoint env).2.getLast? = some .logError := by
  obtain ⟨c, w, m, s, st, g, f⟩ := env
  simp only [excFirstInSteps16] at h
  rcases h with h1 | ⟨h1, h2⟩ | ⟨h1, h2, h3⟩ | ⟨h1, h2, h3, h4⟩
    | ⟨h1, h2, h3, h4, h5⟩ | ⟨h1, h2, h3, h4, h5, h6⟩ <;>
    subst_vars <;> exact ⟨rfl, rfl, rfl⟩

/-- C2, witness: a room connection that raises an `Exception` is caught,
logged once as the final event, and the entrypoint returns normally. -/
theorem c2_witness :
    (entrypoint ⟨.raiseExc, .ok, .ok, .ok, .ok, .ok, .ok⟩).1 = .returned
    ∧ (entrypoint ⟨.raiseExc, .ok, .ok, .ok, .ok, .ok, .ok⟩).2.count .logError = 1
    ∧ (entrypoint ⟨.raiseExc, .ok, .ok, .ok, .ok, .ok, .ok⟩).2.getLast?
        = some .logError :=
  c2_exception_swallowed ⟨.raiseExc, .ok, .ok, .ok, .ok, .ok, .ok⟩ (Or.inl rfl)

/-- C4: in every invocation where the participant wait resolves and steps
1–6 all succeed, the model client is constructed exactly once and with
exactly the hardcoded model identifier and instruction string, and the
"start session" and "generate greeting" calls each happen exactly once, in
that order, in the trace leading to the final suspension point. -/
theorem c4_nominal_run (env : Env)
    (h : env.connect = .ok ∧ env.waitParticipant = .ok ∧ env.buildModel = .ok
      ∧ env.buildSession = .ok ∧ env.startSession = .ok ∧ env.greet = .ok) :
    (entrypoint env).2.filter Event.isModelCtor
        = [.modelCtor modelName modelInstructions]
    ∧ (entrypoint env).2.count .startCall = 1
    ∧ (entrypoint env).2.count (.greetCall greetingInstructions) = 1
    ∧ (entrypoint env).2.indexOf .startCall
        < (entrypoint env).2.indexOf (.greetCall greetingInstructions) := by
  obtain ⟨c, w, m, s, st, g, f⟩ := env
  obtain ⟨h1, h2, h3, h4, h5, h6⟩ := h
  subst_vars
  cases f <;> decide

/-- C4, witness: the all-successful run constructs the model client exactly
once with the hardcoded identifier and makes the start and greeting calls
once each, in order. -/
theorem c4_witness :
    (entrypoint allOk).2.filter Event.isModelCtor
        = [.modelCtor modelName modelInstructions]
    ∧ (entrypoint allOk).2.count .startCall = 1
    ∧ (entrypoint allOk).2.count (.greetCall greetingInstructions) = 1
    ∧ (entrypoint allOk).2.indexOf .startCall
        < (entrypoint allOk).2.indexOf (.greetCall greetingInstructions) :=
  c4_nominal_run allOk ⟨rfl, rfl, rfl, rfl, rfl, rfl⟩

/-- C6: when steps 1–6 all succeed and the final future never resolves, the
entrypoint suspends forever at the final await and never returns
normally. -/
theorem c6_suspends_never_returns (env : Env)
    (h : env.connect = .ok ∧ env.waitParticipant = .ok ∧ env.buildModel = .ok
      ∧ env.buildSession = .ok ∧ env.startSession = .ok ∧ env.greet = .ok
      ∧ env.foreverWait = .ok) :
    (entrypoint env).1 = .suspended ∧ (entrypoint env).1 ≠ .returned := by
  obtain ⟨c, w, m, s, st, g, f⟩ := env
  obtain ⟨h1, h2, h3, h4, h5, h6, h7⟩ := h
  subst_vars
  decide

/-- C6, witness: the all-successful run suspends and does not return. -/
theorem c6_witness :
    (entrypoint allOk).1 = .suspended ∧ (entrypoint allOk).1 ≠ .returned :=
  c6_suspends_never_returns allOk ⟨rfl, rfl, rfl, rfl, rfl, rfl, rfl⟩

/-- C8: the two hardcoded instruction strings differ — the model-client
configuration carries "You are Vanta, a helpful assistant." while the agent
descriptor passed to session start carries "You are Vanta." — and the
nominal run exhibits both, unmerged, in its trace. -/
theorem c8_two_instruction_strings :
    modelInstructions ≠ agentInstructions
    ∧ Event.modelCtor modelName modelInstructions ∈ (entrypoint allOk).2
    ∧ Event.agentCtor agentInstructions ∈ (entrypoint allOk).2 := by
  decide

/-- C9: whenever the first raising step of the body raises a `BaseException`
not derived from `Exception` (task cancellation, keyboard interrupt, system
exit) — at any of the seven steps — the handler does not match: nothing is
logged as an error and the exception propagates out of the entrypoint. -/
theorem c9_base_exception_not_caught (env : Env) (h : baseFirst env) :
    (entrypoint env).1 = .propagatedBase
    ∧ (entrypoint env).2.count .logError = 0 := by
  obtain ⟨c, w, m, s, st, g, f⟩ := env
  simp only [baseFirst] at h
  rcases h with h1 | ⟨h1, h2⟩ | ⟨h1, h2, h3⟩ | ⟨h1, h2, h3, h4⟩
    | ⟨h1, h2, h3, h4, h5⟩ | ⟨h1, h2, h3, h4, h5, h6⟩
    | ⟨h1, h2, h3, h4, h5, h6, h7⟩ <;>
    subst_vars <;> exact ⟨rfl, rfl⟩

/-- C9, witness: a cancellation raised at the participant wait propagates
uncaught and unlogged. -/
theorem c9_witness :
    (entrypoint ⟨.ok, .raiseBase, .ok, .ok, .ok, .ok, .ok⟩).1 = .propagatedBase
    ∧ (entrypoint ⟨.ok, .raiseBase, .ok, .ok, .ok, .ok, .ok⟩).2.count .logError = 0 :=
  c9_base_exception_not_caught ⟨.ok, .raiseBase, .ok, .ok, .ok, .ok, .ok⟩
    (Or.inr (Or.inl ⟨rfl, rfl⟩))
